import Mathlib

/-!
Shallow embedding of the cross-exchange market-making (XEMM) strategy core
(`CrossExchangeMarketMakingStrategy`), together with theorems settling the
stated properties of its specification.

Modelling conventions:
* Prices, amounts, balances and timestamps (Python `Decimal` / `double`) are
  embedded as `ℚ`.
* External venue adapters (order books, markets, the FX oracle) are inputs:
  they appear as structures of functions supplied to each strategy routine,
  mirroring exactly the calls the source makes on them.
* A Python `ZeroDivisionError` raised by `c_get_vwap_for_volume` on an empty
  book is modelled by an `Option ℚ` result (`none` = the exception), since the
  source uses that exception purely as control flow.
* Side effects (order placement, cancellation) are modelled as explicit
  `Action` values returned by the routines, in emission order.
-/

namespace CrossExchangeMarketMaking

/-- Order book of one leg, as consumed by the strategy.
`getPrice true` is the top ask (the price that fills a buy), `getPrice false`
the top bid, following the repository convention visible in
`paper_trade_market.pyx` (`c_get_price(symbol, is_buy)` reads the side that
would fill that direction). `vwapForVolume is_buy volume` is
`c_get_vwap_for_volume(is_buy, volume).result_price`, `none` modelling the
`ZeroDivisionError` on an empty side. `priceForVolume` is
`c_get_price_for_volume(is_buy, volume).result_price`. -/
structure OrderBookModel where
  getPrice : Bool → ℚ
  vwapForVolume : Bool → ℚ → Option ℚ
  priceForVolume : Bool → ℚ → ℚ

/-- Venue adapter for one market, restricted to the single trading pair in
play (the source keys these calls by a symbol string that is fixed per leg).
`getOrderPriceQuantum` models `c_get_order_price_quantum(symbol, price)` as
an arbitrary function of the price argument: the adapter owns it, and the
in-repository implementation (`paper_trade_market.pyx` lines 885-897,
embedded below as `paper_trade_order_price_quantum`) is genuinely
price-dependent. `quantizeOrderAmount` models `c_quantize_order_amount` and
is likewise kept abstract. -/
structure MarketModel where
  getBalance : String → ℚ
  getAvailableBalance : String → ℚ
  getPrice : Bool → ℚ
  getOrderPriceQuantum : ℚ → ℚ
  quantizeOrderAmount : ℚ → ℚ

/-- Dispatch of `c_get_order_price_quantum(pair, price)` to the venue
adapter of the market. -/
def c_get_order_price_quantum (m : MarketModel) (price : ℚ) : ℚ :=
  m.getOrderPriceQuantum price

/-- Quantization parameters of the paper trade market
(`QuantizationParams` price fields, `paper_trade_market.pyx`). -/
structure QuantizationParams where
  price_decimals : ℕ
  price_precision : ℕ
deriving DecidableEq

/-- Embeds `c_get_order_price_quantum` of `paper_trade_market.pyx` (lines
885-897): with quantization params configured for the symbol, the maximum of
the significant-figure quantum `10 ^ (ceil(log10 price) - price_precision)`
(`0` when the price is not positive) and the decimals quantum
`10 ^ (-price_decimals)`; without params, `10 ^ (-15)`. The float
`math.ceil(math.log10(price))` is embedded as the exact ceiling logarithm
`Int.clog 10 price`. -/
def paper_trade_order_price_quantum (q_params : Option QuantizationParams)
    (price : ℚ) : ℚ :=
  match q_params with
  | some q =>
    let decimals_quantum : ℚ := (10 : ℚ) ^ (-(q.price_decimals : ℤ))
    let precision_quantum : ℚ :=
      if 0 < price then (10 : ℚ) ^ (Int.clog 10 price - (q.price_precision : ℤ)) else 0
    max precision_quantum decimals_quantum
  | none => (10 : ℚ) ^ (-15 : ℤ)

/-- One leg (maker or taker) of a cross exchange market pair. -/
structure MarketLeg where
  market : MarketModel
  base_asset : String
  quote_asset : String
  order_book : OrderBookModel

/-- A cross exchange market pair: maker leg and taker leg. -/
structure MarketPair where
  maker : MarketLeg
  taker : MarketLeg

/-- The strategy configuration fields read by the embedded routines
(constructor arguments of `CrossExchangeMarketMakingStrategy`). -/
structure Config where
  min_profitability : ℚ
  order_amount : ℚ
  order_size_taker_volume_factor : ℚ
  order_size_taker_balance_factor : ℚ
  order_size_portfolio_ratio_limit : ℚ
  limit_order_min_expiration : ℚ
  adjust_order_enabled : Bool
  anti_hysteresis_duration : ℚ
  active_order_canceling : Bool
  cancel_order_threshold : ℚ
  top_depth_tolerance : ℚ

/-- Strategy environment: configuration plus the FX oracle.
`fx a b` models `ExchangeRateConversion.convert_token_value(1, a, b)`. -/
structure StratEnv where
  cfg : Config
  fx : String → String → ℚ

/-- A tracked maker limit order, with the fields the strategy reads. -/
structure LimitOrderModel where
  client_order_id : String
  is_buy : Bool
  price : ℚ
  quantity : ℚ
deriving DecidableEq

/-- One maker order fill event buffered for hedging
(amount and price of `order_filled_event`). -/
structure FillEvent where
  amount : ℚ
  price : ℚ
deriving DecidableEq

/-- Side effects emitted by the strategy routines:
maker limit order placement (bid / ask), maker order cancellation, and taker
market orders (`c_sell_with_specific_market` / `c_buy_with_specific_market`
with the default MARKET order type). -/
inductive Action where
  | cancel (order_id : String)
  | placeBid (size price : ℚ)
  | placeAsk (size price : ℚ)
  | takerSell (amount : ℚ)
  | takerBuy (amount : ℚ)
deriving DecidableEq

/-- Predicate: the action is a maker bid placement. -/
def isPlaceBid : Action → Bool
  | Action.placeBid _ _ => true
  | _ => false

/-- Predicate: the action is a maker ask placement. -/
def isPlaceAsk : Action → Bool
  | Action.placeAsk _ _ => true
  | _ => false

/-- Embeds `c_get_order_size_after_portfolio_ratio_limit` (source lines
656-677): portfolio value in base units from total balances and the maker mid
price, scaled by the portfolio ratio limit, then quantized. -/
def c_get_order_size_after_portfolio_ratio_limit (env : StratEnv) (pair : MarketPair) : ℚ :=
  let maker_market := pair.maker.market
  let base_balance := maker_market.getBalance pair.maker.base_asset
  let quote_balance := maker_market.getBalance pair.maker.quote_asset
  let current_price := (maker_market.getPrice true + maker_market.getPrice false) * (1 / 2)
  let maker_portfolio_value := base_balance + quote_balance / current_price
  let adjusted_order_size := maker_portfolio_value * env.cfg.order_size_portfolio_ratio_limit
  maker_market.quantizeOrderAmount adjusted_order_size

/-- Embeds `c_get_adjusted_limit_order_size` (source lines 633-654): the user
override `order_amount` when positive, else the portfolio-ratio-limited size. -/
def c_get_adjusted_limit_order_size (env : StratEnv) (pair : MarketPair) : ℚ :=
  if 0 < env.cfg.order_amount then
    pair.maker.market.quantizeOrderAmount env.cfg.order_amount
  else
    c_get_order_size_after_portfolio_ratio_limit env pair

/-- Embeds `c_get_market_making_size` (source lines 679-737). Note that in
both branches the `ZeroDivisionError` fallback reads
`taker_order_book.c_get_price(True)` (source lines 711 and 731). -/
def c_get_market_making_size (env : StratEnv) (pair : MarketPair) (is_bid : Bool) : ℚ :=
  if is_bid then
    let maker_balance_in_quote := pair.maker.market.getAvailableBalance pair.maker.quote_asset
    let taker_balance := pair.taker.market.getAvailableBalance pair.taker.base_asset *
      env.cfg.order_size_taker_balance_factor
    let user_order := c_get_adjusted_limit_order_size env pair
    let taker_price :=
      match pair.taker.order_book.vwapForVolume false user_order with
      | some p => p
      | none => pair.taker.order_book.getPrice true
    let maker_balance := maker_balance_in_quote / taker_price
    let order_amount := min (min maker_balance taker_balance) user_order
    pair.maker.market.quantizeOrderAmount order_amount
  else
    let maker_balance := pair.maker.market.getAvailableBalance pair.maker.base_asset
    let taker_balance_in_quote := pair.taker.market.getAvailableBalance pair.taker.quote_asset *
      env.cfg.order_size_taker_balance_factor
    let user_order := c_get_adjusted_limit_order_size env pair
    let taker_price :=
      match pair.taker.order_book.vwapForVolume true user_order with
      | some p => p
      | none => pair.taker.order_book.getPrice true
    let taker_balance := taker_balance_in_quote / taker_price
    let order_amount := min (min maker_balance taker_balance) user_order
    pair.maker.market.quantizeOrderAmount order_amount

/-- Embeds `c_get_top_bid_ask` (source lines 903-926): raw maker top of book,
either best prices or depth-volume prices per `top_depth_tolerance`. -/
def c_get_top_bid_ask (env : StratEnv) (pair : MarketPair) : ℚ × ℚ :=
  let ob := pair.maker.order_book
  if env.cfg.top_depth_tolerance = 0 then
    (ob.getPrice false, ob.getPrice true)
  else
    (ob.priceForVolume false env.cfg.top_depth_tolerance,
     ob.priceForVolume true env.cfg.top_depth_tolerance)

/-- Embeds `c_get_top_bid_ask_from_price_samples` (source lines 955-973):
Python max over the bid samples plus the current top bid, and min over the
ask samples plus the current top ask. -/
def c_get_top_bid_ask_from_price_samples (env : StratEnv) (pair : MarketPair)
    (bidSamples askSamples : List ℚ) : ℚ × ℚ :=
  let current := c_get_top_bid_ask env pair
  (bidSamples.foldr max current.1, askSamples.foldr min current.2)

/-- Embeds `c_get_market_making_price` (source lines 739-835): taker VWAP on
the hedging side, FX-converted when the quote assets differ, profitability
applied, optionally clamped one tick past the smoothed top of book, then
floor-quantized (bid) or ceil-quantized (ask) to the maker price tick.
`none` is the `return None` on `ZeroDivisionError`. -/
def c_get_market_making_price (env : StratEnv) (pair : MarketPair)
    (bidSamples askSamples : List ℚ) (is_bid : Bool) (size : ℚ) : Option ℚ :=
  let tops := c_get_top_bid_ask_from_price_samples env pair bidSamples askSamples
  let maker_market := pair.maker.market
  if is_bid then
    let price_quantum := c_get_order_price_quantum maker_market tops.1
    let price_above_bid := ((⌈tops.1 / price_quantum⌉ + 1 : ℤ) : ℚ) * price_quantum
    match pair.taker.order_book.vwapForVolume false size with
    | none => none
    | some taker_price =>
      let taker_price :=
        if pair.maker.quote_asset ≠ pair.taker.quote_asset then
          taker_price * env.fx pair.taker.quote_asset pair.maker.quote_asset
        else taker_price
      let maker_price := taker_price / (1 + env.cfg.min_profitability)
      let maker_price :=
        if env.cfg.adjust_order_enabled then min maker_price price_above_bid else maker_price
      let price_quantum2 := c_get_order_price_quantum maker_market maker_price
      some (((⌊maker_price / price_quantum2⌋ : ℤ) : ℚ) * price_quantum2)
  else
    let price_quantum := c_get_order_price_quantum maker_market tops.2
    let next_price_below_top_ask := ((⌊tops.2 / price_quantum⌋ - 1 : ℤ) : ℚ) * price_quantum
    match pair.taker.order_book.vwapForVolume true size with
    | none => none
    | some taker_price =>
      let taker_price :=
        if pair.maker.quote_asset ≠ pair.taker.quote_asset then
          taker_price * env.fx pair.taker.quote_asset pair.maker.quote_asset
        else taker_price
      let maker_price := taker_price * (1 + env.cfg.min_profitability)
      let maker_price :=
        if env.cfg.adjust_order_enabled then max maker_price next_price_below_top_ask
        else maker_price
      let price_quantum2 := c_get_order_price_quantum maker_market maker_price
      some (((⌈maker_price / price_quantum2⌉ : ℤ) : ℚ) * price_quantum2)

/-- Embeds `c_calculate_effective_hedging_price` (source lines 837-890): the
taker VWAP on the hedging side in maker quote units, `none` on empty book. -/
def c_calculate_effective_hedging_price (env : StratEnv) (pair : MarketPair)
    (is_bid : Bool) (size : ℚ) : Option ℚ :=
  if is_bid then
    match pair.taker.order_book.vwapForVolume false size with
    | none => none
    | some taker_price =>
      some (if pair.maker.quote_asset ≠ pair.taker.quote_asset then
              taker_price * env.fx pair.taker.quote_asset pair.maker.quote_asset
            else taker_price)
  else
    match pair.taker.order_book.vwapForVolume true size with
    | none => none
    | some taker_price =>
      some (if pair.maker.quote_asset ≠ pair.taker.quote_asset then
              taker_price * env.fx pair.taker.quote_asset pair.maker.quote_asset
            else taker_price)

/-- Embeds `c_check_if_still_profitable` (source lines 975-1027). The result
is the Boolean the source returns: `true` when the order stays, `false`
exactly when the source calls `c_cancel_order` on it. -/
def c_check_if_still_profitable (cfg : Config) (active_order : LimitOrderModel)
    (current_hedging_price : Option ℚ) : Bool :=
  let is_buy := active_order.is_buy
  let order_price := active_order.price
  let cancel_order_threshold :=
    if ¬cfg.active_order_canceling then cfg.cancel_order_threshold
    else cfg.min_profitability
  match current_hedging_price with
  | none => false
  | some h =>
    if (is_buy = true ∧ h < order_price * (1 + cancel_order_threshold)) ∨
       (is_buy = false ∧ order_price < h * (1 + cancel_order_threshold)) then
      false
    else true

/-- The threshold the profitability test uses, as the claim words it. -/
def profitabilityThreshold (cfg : Config) : ℚ :=
  if cfg.active_order_canceling then cfg.min_profitability else cfg.cancel_order_threshold

/-- Embeds `c_check_if_sufficient_balance` (source lines 1029-1066): `true`
when the order stays, `false` exactly when the source cancels it. -/
def c_check_if_sufficient_balance (pair : MarketPair) (active_order : LimitOrderModel) : Bool :=
  let is_buy := active_order.is_buy
  let order_price := active_order.price
  let maker_market := pair.maker.market
  let taker_market := pair.taker.market
  let quote_asset_amount :=
    if is_buy then maker_market.getBalance pair.maker.quote_asset
    else taker_market.getBalance pair.taker.quote_asset
  let base_asset_amount :=
    if is_buy then taker_market.getBalance pair.taker.base_asset
    else maker_market.getBalance pair.maker.base_asset
  let order_size_limit := min base_asset_amount (quote_asset_amount / order_price)
  let quantized_size_limit := maker_market.quantizeOrderAmount order_size_limit
  if quantized_size_limit < active_order.quantity then false else true

/-- Embeds `c_check_if_price_has_drifted` (source lines 496-549): `true` when
the order stays, `false` exactly when the source cancels it because the
recomputed market making price differs from the order price. The source
converts the recomputed price with `float(...)`, which can only be reached
with a non-`None` price (the profitability check has already passed on the
same taker VWAP); the unreachable `none` case is modelled as the order
staying. -/
def c_check_if_price_has_drifted (env : StratEnv) (pair : MarketPair)
    (bidSamples askSamples : List ℚ) (active_order : LimitOrderModel) : Bool :=
  match c_get_market_making_price env pair bidSamples askSamples
      active_order.is_buy active_order.quantity with
  | none => true
  | some suggested_price =>
    if suggested_price ≠ active_order.price then false else true

/-- Embeds `c_check_and_hedge_orders` (source lines 551-631), for one market
pair. Inputs are the buffered buy and sell fill buckets
(`_order_fill_buy_events` / `_order_fill_sell_events` entries for the pair,
an absent entry being the empty list); the result is the emitted taker market
orders together with the buckets after the call (`del` of a bucket is the
empty list). The source also computes `taker_top` and `avg_fill_price`,
which feed log messages only and are omitted here. -/
def c_check_and_hedge_orders (env : StratEnv) (pair : MarketPair)
    (buy_fill_records sell_fill_records : List FillEvent) :
    List Action × List FillEvent × List FillEvent :=
  let taker_market := pair.taker.market
  let taker_order_book := pair.taker.order_book
  let buy_fill_quantity := (buy_fill_records.map (fun r => r.amount)).sum
  let sell_fill_quantity := (sell_fill_records.map (fun r => r.amount)).sum
  let buyPart : List Action × List FillEvent :=
    if 0 < buy_fill_quantity then
      let hedged_order_quantity := min buy_fill_quantity
        (taker_market.getAvailableBalance pair.taker.base_asset *
          env.cfg.order_size_taker_balance_factor)
      let quantized_hedge_amount := taker_market.quantizeOrderAmount hedged_order_quantity
      if 0 < quantized_hedge_amount then
        ([Action.takerSell quantized_hedge_amount], [])
      else
        ([], buy_fill_records)
    else ([], buy_fill_records)
  let sellPart : List Action × List FillEvent :=
    if 0 < sell_fill_quantity then
      let hedged_order_quantity := min sell_fill_quantity
        (taker_market.getAvailableBalance pair.taker.quote_asset /
          taker_order_book.priceForVolume true sell_fill_quantity *
          env.cfg.order_size_taker_balance_factor)
      let quantized_hedge_amount := taker_market.quantizeOrderAmount hedged_order_quantity
      if 0 < quantized_hedge_amount then
        ([Action.takerBuy quantized_hedge_amount], [])
      else
        ([], sell_fill_records)
    else ([], sell_fill_records)
  (buyPart.1 ++ sellPart.1, buyPart.2, sellPart.2)

/-- The bid block of `c_check_and_create_new_orders` (source lines
1081-1128): place a new bid when there is no active bid, its size is
positive and its price is not `None`. -/
def createBidOrder (env : StratEnv) (pair : MarketPair)
    (bidSamples askSamples : List ℚ) (has_active_bid : Bool) : List Action :=
  if !has_active_bid then
    let bid_size := c_get_market_making_size env pair true
    if 0 < bid_size then
      match c_get_market_making_price env pair bidSamples askSamples true bid_size with
      | some bid_price => [Action.placeBid bid_size bid_price]
      | none => []
    else []
  else []

/-- The ask block of `c_check_and_create_new_orders` (source lines
1129-1176): place a new ask when there is no active ask, its size is
positive and its price is not `None`. -/
def createAskOrder (env : StratEnv) (pair : MarketPair)
    (bidSamples askSamples : List ℚ) (has_active_ask : Bool) : List Action :=
  if !has_active_ask then
    let ask_size := c_get_market_making_size env pair false
    if 0 < ask_size then
      match c_get_market_making_price env pair bidSamples askSamples false ask_size with
      | some ask_price => [Action.placeAsk ask_size ask_price]
      | none => []
    else []
  else []

/-- Embeds `c_check_and_create_new_orders` (source lines 1068-1176): the bid
block followed by the ask block. -/
def c_check_and_create_new_orders (env : StratEnv) (pair : MarketPair)
    (bidSamples askSamples : List ℚ) (has_active_bid has_active_ask : Bool) :
    List Action :=
  createBidOrder env pair bidSamples askSamples has_active_bid ++
    createAskOrder env pair bidSamples askSamples has_active_ask

/-- Accumulator of the per-order loop of `c_process_market_pair`: the
`has_active_bid`, `has_active_ask` and `need_adjust_order` flags plus the
cancel actions emitted so far. -/
structure LoopState where
  has_active_bid : Bool
  has_active_ask : Bool
  need_adjust_order : Bool
  actions : List Action
deriving DecidableEq

/-- Embeds the `for active_order in active_orders` loop of
`c_process_market_pair` (source lines 338-371): per order, flag its side,
then profitability check, passive-mode stop, balance check each cancelling
on failure, and the anti-hysteresis-gated drift check setting
`need_adjust_order` on a drift cancellation. The timer value compared against
is the one read before the loop, as in the source. -/
def processOrdersLoop (env : StratEnv) (pair : MarketPair)
    (bidSamples askSamples : List ℚ) (anti_hysteresis_timer current_timestamp : ℚ) :
    List LimitOrderModel → LoopState → LoopState
  | [], st => st
  | active_order :: rest, st =>
    let st' : LoopState :=
      { st with
        has_active_bid := st.has_active_bid || active_order.is_buy,
        has_active_ask := st.has_active_ask || !active_order.is_buy }
    let current_hedging_price :=
      c_calculate_effective_hedging_price env pair active_order.is_buy active_order.quantity
    if !c_check_if_still_profitable env.cfg active_order current_hedging_price then
      processOrdersLoop env pair bidSamples askSamples anti_hysteresis_timer current_timestamp
        rest { st' with actions := st'.actions ++ [Action.cancel active_order.client_order_id] }
    else if !env.cfg.active_order_canceling then
      processOrdersLoop env pair bidSamples askSamples anti_hysteresis_timer current_timestamp
        rest st'
    else if !c_check_if_sufficient_balance pair active_order then
      processOrdersLoop env pair bidSamples askSamples anti_hysteresis_timer current_timestamp
        rest { st' with actions := st'.actions ++ [Action.cancel active_order.client_order_id] }
    else if anti_hysteresis_timer < current_timestamp then
      if !c_check_if_price_has_drifted env pair bidSamples askSamples active_order then
        processOrdersLoop env pair bidSamples askSamples anti_hysteresis_timer current_timestamp
          rest { st' with need_adjust_order := true,
                          actions := st'.actions ++ [Action.cancel active_order.client_order_id] }
      else
        processOrdersLoop env pair bidSamples askSamples anti_hysteresis_timer current_timestamp
          rest st'
    else
      processOrdersLoop env pair bidSamples askSamples anti_hysteresis_timer current_timestamp
        rest st'

/-- Embeds `c_process_market_pair` (source lines 306-387).
`anti_hysteresis_timer` is `_anti_hysteresis_timers.get(market_pair, 0)`;
`pending_taker_order_count` is `len(tracked_taker_orders.get(market_pair, {}))`.
The result is the timer value stored for the pair after the call, together
with the actions emitted in order: the per-order cancels, then - unless both
sides are active or taker market orders are pending - the new-order
placements of `c_check_and_create_new_orders`. -/
def c_process_market_pair (env : StratEnv) (pair : MarketPair)
    (bidSamples askSamples : List ℚ) (anti_hysteresis_timer current_timestamp : ℚ)
    (pending_taker_order_count : ℕ) (active_orders : List LimitOrderModel) :
    ℚ × List Action :=
  let st := processOrdersLoop env pair bidSamples askSamples anti_hysteresis_timer
    current_timestamp active_orders ⟨false, false, false, []⟩
  let timer' :=
    if st.need_adjust_order then current_timestamp + env.cfg.anti_hysteresis_duration
    else anti_hysteresis_timer
  if st.has_active_bid && st.has_active_ask then (timer', st.actions)
  else if 0 < pending_taker_order_count then (timer', st.actions)
  else (timer', st.actions ++
    c_check_and_create_new_orders env pair bidSamples askSamples
      st.has_active_bid st.has_active_ask)

/-- The sample interval constant `ORDER_ADJUST_SAMPLE_INTERVAL = 5`. -/
def ORDER_ADJUST_SAMPLE_INTERVAL : ℚ := 5

/-- The sample window constant `ORDER_ADJUST_SAMPLE_WINDOW = 12`. -/
def ORDER_ADJUST_SAMPLE_WINDOW : ℕ := 12

/-- The `while len(dq) > ORDER_ADJUST_SAMPLE_WINDOW: dq.popleft()` loops of
`c_take_suggested_price_sample`, written as dropping the excess prefix. -/
def trimToWindow (dq : List ℚ) : List ℚ :=
  dq.drop (dq.length - ORDER_ADJUST_SAMPLE_WINDOW)

/-- Embeds `c_take_suggested_price_sample` (source lines 928-953) for one
market pair: when the 5-second floor-division slot advanced since the last
tick, append the tops obtained from `c_get_top_bid_ask_from_price_samples`
to the two deques and evict from the left down to the window. Deques are
lists with their left end at the head. -/
def c_take_suggested_price_sample (env : StratEnv) (pair : MarketPair)
    (last_timestamp current_timestamp : ℚ) (bidSamples askSamples : List ℚ) :
    List ℚ × List ℚ :=
  if ⌊last_timestamp / ORDER_ADJUST_SAMPLE_INTERVAL⌋ <
     ⌊current_timestamp / ORDER_ADJUST_SAMPLE_INTERVAL⌋ then
    let tops := c_get_top_bid_ask_from_price_samples env pair bidSamples askSamples
    (trimToWindow (bidSamples ++ [tops.1]), trimToWindow (askSamples ++ [tops.2]))
  else (bidSamples, askSamples)

/-- Embeds the per-pair fan-out inside `c_tick` (source lines 300-302, inside
the `try` of lines 264-304): the pairs are processed in order and the body of
`c_tick` has no `except` clause, so the first exception aborts the loop.
Per-pair processing is abstracted as `process : ℕ → Except String Unit`
(pairs numbered), an `Except.error` modelling a raised exception. The result
is the list of pairs whose processing was invoked, and the outcome. -/
def tickLoopPairs (process : ℕ → Except String Unit) :
    List ℕ → List ℕ × Except String Unit
  | [] => ([], Except.ok ())
  | p :: rest =>
    match process p with
    | Except.ok _ =>
      let r := tickLoopPairs process rest
      (p :: r.1, r.2)
    | Except.error e => ([p], Except.error e)

/-- Embeds the control flow of `c_tick` (source lines 245-304) around the
per-pair loop: `try ... finally: self._last_timestamp = timestamp` with no
`except` clause. The result is the `_last_timestamp` stored after the call
(updated even when an exception escapes, by `finally`), the pairs whose
processing was invoked, and the outcome of the tick (`Except.error`
modelling an exception propagating out of `c_tick`). -/
def c_tick (process : ℕ → Except String Unit) (pairs : List ℕ)
    (current_timestamp : ℚ) : ℚ × List ℕ × Except String Unit :=
  let r := tickLoopPairs process pairs
  (current_timestamp, r.1, r.2)

/-- Modelled from the spec: the Pricer maker price exactly as the spec words
it (section 4.4 and claim C4): raw price from the taker VWAP and
profitability, clamped to `top_bid + 1 tick` (bid) or `top_ask - 1 tick`
(ask) when adjustment is enabled, then floor- or ceil-quantized to the maker
price tick. The claim speaks of a single maker price tick, so the tick is an
explicit parameter (the spec glossary treats it as the per-pair minimum
price increment). Used as the comparison target for the pricing claim. -/
def spec_maker_price (env : StratEnv) (pair : MarketPair)
    (bidSamples askSamples : List ℚ) (tick : ℚ) (is_bid : Bool) (size : ℚ) : Option ℚ :=
  let tops := c_get_top_bid_ask_from_price_samples env pair bidSamples askSamples
  if is_bid then
    match pair.taker.order_book.vwapForVolume false size with
    | none => none
    | some taker_price =>
      let taker_price :=
        if pair.maker.quote_asset ≠ pair.taker.quote_asset then
          taker_price * env.fx pair.taker.quote_asset pair.maker.quote_asset
        else taker_price
      let raw := taker_price / (1 + env.cfg.min_profitability)
      let raw := if env.cfg.adjust_order_enabled then min raw (tops.1 + tick) else raw
      some (((⌊raw / tick⌋ : ℤ) : ℚ) * tick)
  else
    match pair.taker.order_book.vwapForVolume true size with
    | none => none
    | some taker_price =>
      let taker_price :=
        if pair.maker.quote_asset ≠ pair.taker.quote_asset then
          taker_price * env.fx pair.taker.quote_asset pair.maker.quote_asset
        else taker_price
      let raw := taker_price * (1 + env.cfg.min_profitability)
      let raw := if env.cfg.adjust_order_enabled then max raw (tops.2 - tick) else raw
      some (((⌈raw / tick⌉ : ℤ) : ℚ) * tick)

/-- Modelled from the spec: the sizing routine with the division-by-zero
fallback as claim C7 words it - the top quote on the same side the VWAP was
being computed on (the bid side for bid sizing, the ask side for ask sizing);
everything else identical to `c_get_market_making_size`. Used as the
comparison target for the fallback claim. -/
def spec_market_making_size_same_side_fallback (env : StratEnv) (pair : MarketPair)
    (is_bid : Bool) : ℚ :=
  if is_bid then
    let maker_balance_in_quote := pair.maker.market.getAvailableBalance pair.maker.quote_asset
    let taker_balance := pair.taker.market.getAvailableBalance pair.taker.base_asset *
      env.cfg.order_size_taker_balance_factor
    let user_order := c_get_adjusted_limit_order_size env pair
    let taker_price :=
      match pair.taker.order_book.vwapForVolume false user_order with
      | some p => p
      | none => pair.taker.order_book.getPrice false
    let maker_balance := maker_balance_in_quote / taker_price
    let order_amount := min (min maker_balance taker_balance) user_order
    pair.maker.market.quantizeOrderAmount order_amount
  else
    let maker_balance := pair.maker.market.getAvailableBalance pair.maker.base_asset
    let taker_balance_in_quote := pair.taker.market.getAvailableBalance pair.taker.quote_asset *
      env.cfg.order_size_taker_balance_factor
    let user_order := c_get_adjusted_limit_order_size env pair
    let taker_price :=
      match pair.taker.order_book.vwapForVolume true user_order with
      | some p => p
      | none => pair.taker.order_book.getPrice true
    let taker_balance := taker_balance_in_quote / taker_price
    let order_amount := min (min maker_balance taker_balance) user_order
    pair.maker.market.quantizeOrderAmount order_amount

/-! Concrete environments used by counterexamples and witnesses. Asset names
are single letters: base asset is the string B, quote asset is the string U. -/

/-- A flat order book: fixed top prices, VWAP defined for every volume. -/
def flatBook (bid ask : ℚ) : OrderBookModel :=
  { getPrice := fun b => if b then ask else bid,
    vwapForVolume := fun b _ => if b then some ask else some bid,
    priceForVolume := fun b _ => if b then ask else bid }

/-- An order book whose VWAP calls raise (empty book), with top quotes. -/
def emptyVwapBook (bid ask : ℚ) : OrderBookModel :=
  { getPrice := fun b => if b then ask else bid,
    vwapForVolume := fun _ _ => none,
    priceForVolume := fun b _ => if b then ask else bid }

/-- A market with given base and quote balances, top prices, a constant
price quantum of 1/100 and identity amount quantization. -/
def mkMarket (baseBal quoteBal bid ask : ℚ) : MarketModel :=
  { getBalance := fun a => if a = "U" then quoteBal else baseBal,
    getAvailableBalance := fun a => if a = "U" then quoteBal else baseBal,
    getPrice := fun b => if b then ask else bid,
    getOrderPriceQuantum := fun _ => 1 / 100,
    quantizeOrderAmount := fun x => x }

/-- Baseline configuration for the concrete scenarios. -/
def baseCfg : Config :=
  { min_profitability := 1 / 100,
    order_amount := 1,
    order_size_taker_volume_factor := 1 / 4,
    order_size_taker_balance_factor := 1,
    order_size_portfolio_ratio_limit := 1 / 6,
    limit_order_min_expiration := 130,
    adjust_order_enabled := false,
    anti_hysteresis_duration := 60,
    active_order_canceling := true,
    cancel_order_threshold := 1 / 20,
    top_depth_tolerance := 0 }

/-- Baseline environment: identity FX oracle. -/
def envA : StratEnv := ⟨baseCfg, fun _ _ => 1⟩

/-- Both venues flat at top bid 100 / top ask 101, ample balances. -/
def pairA : MarketPair :=
  { maker := ⟨mkMarket 10 10000 100 101, "B", "U", flatBook 100 101⟩,
    taker := ⟨mkMarket 10 10000 100 101, "B", "U", flatBook 100 101⟩ }

/-- Environment for the hedge scenario: taker balance factor 199/200. -/
def envB : StratEnv :=
  ⟨{ baseCfg with order_size_taker_balance_factor := 199 / 200 }, fun _ _ => 1⟩

/-- Pair for the hedge scenario: only 2 base units available on the taker. -/
def pairB : MarketPair :=
  { maker := ⟨mkMarket 10 10000 100 101, "B", "U", flatBook 100 101⟩,
    taker := ⟨mkMarket 2 10000 100 101, "B", "U", flatBook 100 101⟩ }

/-- Environment for the sizing-fallback scenario: order amount override 5. -/
def envC : StratEnv := ⟨{ baseCfg with order_amount := 5 }, fun _ _ => 1⟩

/-- Pair for the sizing-fallback scenario: the taker VWAP raises on both
sides, taker top bid 99 and top ask 101, maker quote balance 101. -/
def pairC : MarketPair :=
  { maker := ⟨mkMarket 10 101 100 101, "B", "U", flatBook 100 101⟩,
    taker := ⟨mkMarket 100 1000 99 101, "B", "U", emptyVwapBook 99 101⟩ }

/-- Pair for the sampling scenarios: maker top bid 100, top ask 200. -/
def pairD : MarketPair :=
  { maker := ⟨mkMarket 10 10000 100 200, "B", "U", flatBook 100 200⟩,
    taker := ⟨mkMarket 10 10000 100 200, "B", "U", flatBook 100 200⟩ }

/-- Environment for the pricing scenario: price adjustment enabled. -/
def envE : StratEnv := ⟨{ baseCfg with adjust_order_enabled := true }, fun _ _ => 1⟩

/-- Pair for the pricing scenario (spec scenario 1): maker top 100/101,
taker VWAP 99.5 on the bid side and 100.5 on the ask side. -/
def pairE : MarketPair :=
  { maker := ⟨mkMarket 10 10000 100 101, "B", "U", flatBook 100 101⟩,
    taker := ⟨mkMarket 10 10000 (199 / 2) (201 / 2), "B", "U", flatBook (199 / 2) (201 / 2)⟩ }

/-- Maker market for the tick-grid pricing scenario: its price quantum is
the paper trade significant-figure quantum (4 price decimals, 2 significant
figures), so the quantum is 1 for prices in [10, 100] but 1/10 one decade
below; the top bid 10.1 does not lie on its own quantum grid. -/
def sigFigMarket : MarketModel :=
  { getBalance := fun a => if a = "U" then 10000 else 10,
    getAvailableBalance := fun a => if a = "U" then 10000 else 10,
    getPrice := fun b => if b then 20 else 101 / 10,
    getOrderPriceQuantum := paper_trade_order_price_quantum (some ⟨4, 2⟩),
    quantizeOrderAmount := fun x => x }

/-- Pair for the tick-grid pricing scenario: maker top bid 10.1 / top ask 20
on the significant-figure venue; flat taker book at 50. -/
def pairF : MarketPair :=
  { maker := ⟨sigFigMarket, "B", "U", flatBook (101 / 10) 20⟩,
    taker := ⟨mkMarket 10 10000 50 50, "B", "U", flatBook 50 50⟩ }

/-- Per-pair processing map used by the tick scenario: pair 0 raises, every
other pair succeeds. -/
def procBoom : ℕ → Except String Unit :=
  fun n => if n = 0 then Except.error "boom" else Except.ok ()

/-! Helper lemmas about the per-order loop and the order creation blocks. -/

/-- The loop of `c_process_market_pair` computes `has_active_bid` and
`has_active_ask` as the disjunction over all active orders - cancelled or
not - and only ever appends cancel actions. -/
theorem processOrdersLoop_spec (env : StratEnv) (pair : MarketPair)
    (bidSamples askSamples : List ℚ) (timer now : ℚ) :
    ∀ (orders : List LimitOrderModel) (st : LoopState),
      (processOrdersLoop env pair bidSamples askSamples timer now orders st).has_active_bid
          = (st.has_active_bid || orders.any (fun o => o.is_buy)) ∧
      (processOrdersLoop env pair bidSamples askSamples timer now orders st).has_active_ask
          = (st.has_active_ask || orders.any (fun o => !o.is_buy)) ∧
      List.countP isPlaceBid
          (processOrdersLoop env pair bidSamples askSamples timer now orders st).actions
          = List.countP isPlaceBid st.actions ∧
      List.countP isPlaceAsk
          (processOrdersLoop env pair bidSamples askSamples timer now orders st).actions
          = List.countP isPlaceAsk st.actions := by
  intro orders
  induction orders with
  | nil => intro st; simp [processOrdersLoop]
  | cons o rest ih =>
    intro st
    have key : ∀ st' : LoopState,
        st'.has_active_bid = (st.has_active_bid || o.is_buy) →
        st'.has_active_ask = (st.has_active_ask || !o.is_buy) →
        List.countP isPlaceBid st'.actions = List.countP isPlaceBid st.actions →
        List.countP isPlaceAsk st'.actions = List.countP isPlaceAsk st.actions →
        (processOrdersLoop env pair bidSamples askSamples timer now rest st').has_active_bid
            = (st.has_active_bid || (o :: rest).any (fun x => x.is_buy)) ∧
        (processOrdersLoop env pair bidSamples askSamples timer now rest st').has_active_ask
            = (st.has_active_ask || (o :: rest).any (fun x => !x.is_buy)) ∧
        List.countP isPlaceBid
            (processOrdersLoop env pair bidSamples askSamples timer now rest st').actions
            = List.countP isPlaceBid st.actions ∧
        List.countP isPlaceAsk
            (processOrdersLoop env pair bidSamples askSamples timer now rest st').actions
            = List.countP isPlaceAsk st.actions := by
      intro st' e1 e2 e3 e4
      obtain ⟨h1, h2, h3, h4⟩ := ih st'
      refine ⟨?_, ?_, ?_, ?_⟩ <;>
        simp [h1, h2, h3, h4, e1, e2, e3, e4, List.any_cons, Bool.or_assoc]
    rw [processOrdersLoop]
    split_ifs <;>
      exact key _ (by simp) (by simp)
        (by simp [List.countP_append, List.countP_cons, isPlaceBid, isPlaceAsk])
        (by simp [List.countP_append, List.countP_cons, isPlaceBid, isPlaceAsk])

/-- The loop sets `need_adjust_order` only under the anti-hysteresis guard
`current_timestamp > anti_hysteresis_timer`. -/
theorem processOrdersLoop_need_adjust (env : StratEnv) (pair : MarketPair)
    (bidSamples askSamples : List ℚ) (timer now : ℚ) :
    ∀ (orders : List LimitOrderModel) (st : LoopState),
      (processOrdersLoop env pair bidSamples askSamples timer now orders st).need_adjust_order
          = true →
      st.need_adjust_order = true ∨ timer < now := by
  intro orders
  induction orders with
  | nil => intro st h; exact Or.inl h
  | cons o rest ih =>
    intro st h
    rw [processOrdersLoop] at h
    split_ifs at h
    all_goals rcases ih _ h with h' | h'
    all_goals first
      | exact Or.inl h'
      | exact Or.inr h'
      | exact Or.inr (by assumption)

/-- The bid creation block emits at most one action, always a bid placement,
and nothing when an active bid exists. -/
theorem createBidOrder_counts (env : StratEnv) (pair : MarketPair)
    (bidSamples askSamples : List ℚ) (hb : Bool) :
    List.countP isPlaceBid (createBidOrder env pair bidSamples askSamples hb) ≤ 1 ∧
    (hb = true → createBidOrder env pair bidSamples askSamples hb = []) ∧
    List.countP isPlaceAsk (createBidOrder env pair bidSamples askSamples hb) = 0 := by
  cases hb with
  | true => simp [createBidOrder, isPlaceBid, isPlaceAsk]
  | false =>
    refine ⟨?_, by simp, ?_⟩ <;>
      · simp only [createBidOrder, Bool.not_false]
        repeat' split
        all_goals simp [isPlaceBid, isPlaceAsk]

/-- The ask creation block emits at most one action, always an ask placement,
and nothing when an active ask exists. -/
theorem createAskOrder_counts (env : StratEnv) (pair : MarketPair)
    (bidSamples askSamples : List ℚ) (ha : Bool) :
    List.countP isPlaceAsk (createAskOrder env pair bidSamples askSamples ha) ≤ 1 ∧
    (ha = true → createAskOrder env pair bidSamples askSamples ha = []) ∧
    List.countP isPlaceBid (createAskOrder env pair bidSamples askSamples ha) = 0 := by
  cases ha with
  | true => simp [createAskOrder, isPlaceBid, isPlaceAsk]
  | false =>
    refine ⟨?_, by simp, ?_⟩ <;>
      · simp only [createAskOrder, Bool.not_false]
        repeat' split
        all_goals simp [isPlaceBid, isPlaceAsk]

/-! Claim C3: profitability test. -/

/-- C3: for every active maker order with price p, with threshold
min_profitability when active_order_canceling else cancel_order_threshold,
and h the effective hedging price for the order side: the profitability test
keeps the order (returns true; false is exactly the cancel path of the
source) if and only if h is not None and, for a bid, h >= p * (1 + threshold),
and, for an ask, p >= h * (1 + threshold). -/
theorem profitability_keeps_iff (cfg : Config) (o : LimitOrderModel) (h : Option ℚ) :
    c_check_if_still_profitable cfg o h = true ↔
      ∃ hv : ℚ, h = some hv ∧
        (o.is_buy = true → o.price * (1 + profitabilityThreshold cfg) ≤ hv) ∧
        (o.is_buy = false → hv * (1 + profitabilityThreshold cfg) ≤ o.price) := by
  cases h with
  | none => simp [c_check_if_still_profitable]
  | some hv =>
    by_cases hc : cfg.active_order_canceling = true <;>
      cases hb : o.is_buy <;>
        simp [c_check_if_still_profitable, profitabilityThreshold, hb, hc, not_lt]

/-- Closed instance of the profitability test: a bid at price 100 with
hedging price 102 and threshold 1/100 is kept. -/
theorem profitability_keeps_iff_witness :
    c_check_if_still_profitable baseCfg ⟨"w1", true, 100, 1⟩ (some 102) = true :=
  (profitability_keeps_iff baseCfg ⟨"w1", true, 100, 1⟩ (some 102)).mpr
    ⟨102, rfl, fun _ => by norm_num [profitabilityThreshold, baseCfg],
      fun hff => by simp at hff⟩

/-! Claim C10: the anti-hysteresis timer never decreases. -/

/-- C10: across one processing pass of a pair, the stored anti-hysteresis
timer never decreases (given a nonnegative anti_hysteresis_duration): it is
either left unchanged, or reassigned to current_timestamp +
anti_hysteresis_duration, the latter only when current_timestamp strictly
exceeds the existing timer value. -/
theorem anti_hysteresis_timer_monotone (env : StratEnv) (pair : MarketPair)
    (bidSamples askSamples : List ℚ) (timer now : ℚ)
    (pending : ℕ) (actives : List LimitOrderModel)
    (hdur : 0 ≤ env.cfg.anti_hysteresis_duration) :
    timer ≤ (c_process_market_pair env pair bidSamples askSamples timer now
        pending actives).1 ∧
    ((c_process_market_pair env pair bidSamples askSamples timer now pending actives).1
        = timer ∨
      ((c_process_market_pair env pair bidSamples askSamples timer now pending actives).1
          = now + env.cfg.anti_hysteresis_duration ∧ timer < now)) := by
  have hfst : (c_process_market_pair env pair bidSamples askSamples timer now
      pending actives).1 =
      if (processOrdersLoop env pair bidSamples askSamples timer now actives
          ⟨false, false, false, []⟩).need_adjust_order
      then now + env.cfg.anti_hysteresis_duration else timer := by
    simp only [c_process_market_pair]
    split
    · rfl
    · split <;> rfl
  rw [hfst]
  by_cases hna : (processOrdersLoop env pair bidSamples askSamples timer now actives
      ⟨false, false, false, []⟩).need_adjust_order = true
  · rcases processOrdersLoop_need_adjust env pair bidSamples askSamples timer now actives
        ⟨false, false, false, []⟩ hna with hfalse | hlt
    · simp at hfalse
    · simp only [hna, if_true]
      exact ⟨le_trans (le_of_lt hlt) (le_add_of_nonneg_right hdur), Or.inr ⟨trivial, hlt⟩⟩
  · simp only [Bool.not_eq_true] at hna
    simp only [hna, Bool.false_eq_true, if_false]
    exact ⟨le_refl timer, Or.inl trivial⟩

/-- Closed instance of timer monotonicity: with timer 3 and tick time 4 and
no active orders, the stored timer does not decrease. -/
theorem anti_hysteresis_timer_monotone_witness :
    3 ≤ (c_process_market_pair envA pairA [] [] 3 4 0 []).1 :=
  (anti_hysteresis_timer_monotone envA pairA [] [] 3 4 0 []
    (by norm_num [envA, baseCfg])).1

/-! Claim C1: at most one active maker bid and ask per pair and tick. -/

/-- C1: per-tick order creation places at most one new bid, and only when the
pair has no active bid, and at most one new ask, and only when the pair has
no active ask; consequently, a pair entering the tick with at most one active
bid (ask) leaves it with at most one bid (ask) counting the new placements. -/
theorem per_tick_at_most_one_bid_and_ask (env : StratEnv) (pair : MarketPair)
    (bidSamples askSamples : List ℚ) (timer now : ℚ) (pending : ℕ)
    (actives : List LimitOrderModel) :
    List.countP isPlaceBid
        (c_process_market_pair env pair bidSamples askSamples timer now pending actives).2
        ≤ 1 ∧
    (0 < List.countP isPlaceBid
        (c_process_market_pair env pair bidSamples askSamples timer now pending actives).2 →
      actives.countP (fun o => o.is_buy) = 0) ∧
    List.countP isPlaceAsk
        (c_process_market_pair env pair bidSamples askSamples timer now pending actives).2
        ≤ 1 ∧
    (0 < List.countP isPlaceAsk
        (c_process_market_pair env pair bidSamples askSamples timer now pending actives).2 →
      actives.countP (fun o => !o.is_buy) = 0) ∧
    (actives.countP (fun o => o.is_buy) ≤ 1 →
      actives.countP (fun o => o.is_buy) + List.countP isPlaceBid
        (c_process_market_pair env pair bidSamples askSamples timer now pending actives).2
        ≤ 1) ∧
    (actives.countP (fun o => !o.is_buy) ≤ 1 →
      actives.countP (fun o => !o.is_buy) + List.countP isPlaceAsk
        (c_process_market_pair env pair bidSamples askSamples timer now pending actives).2
        ≤ 1) := by
  obtain ⟨hfb, hfa, hcb, hca⟩ := processOrdersLoop_spec env pair bidSamples askSamples
    timer now actives ⟨false, false, false, []⟩
  rw [List.countP_nil] at hcb hca
  have hacts :
      (c_process_market_pair env pair bidSamples askSamples timer now pending actives).2
        = (processOrdersLoop env pair bidSamples askSamples timer now actives
            ⟨false, false, false, []⟩).actions ∨
      (c_process_market_pair env pair bidSamples askSamples timer now pending actives).2
        = (processOrdersLoop env pair bidSamples askSamples timer now actives
            ⟨false, false, false, []⟩).actions ++
          c_check_and_create_new_orders env pair bidSamples askSamples
            (processOrdersLoop env pair bidSamples askSamples timer now actives
              ⟨false, false, false, []⟩).has_active_bid
            (processOrdersLoop env pair bidSamples askSamples timer now actives
              ⟨false, false, false, []⟩).has_active_ask := by
    simp only [c_process_market_pair]
    split
    · exact Or.inl rfl
    · split
      · exact Or.inl rfl
      · exact Or.inr rfl
  obtain ⟨hb1, hb2, hb3⟩ := createBidOrder_counts env pair bidSamples askSamples
    (processOrdersLoop env pair bidSamples askSamples timer now actives
      ⟨false, false, false, []⟩).has_active_bid
  obtain ⟨ha1, ha2, ha3⟩ := createAskOrder_counts env pair bidSamples askSamples
    (processOrdersLoop env pair bidSamples askSamples timer now actives
      ⟨false, false, false, []⟩).has_active_ask
  have hanyb : actives.any (fun o => o.is_buy) = false →
      actives.countP (fun o => o.is_buy) = 0 := by
    intro hany
    rw [List.countP_eq_zero]
    intro a haa
    simp only [List.any_eq_false] at hany
    exact hany a haa
  have hanya : actives.any (fun o => !o.is_buy) = false →
      actives.countP (fun o => !o.is_buy) = 0 := by
    intro hany
    rw [List.countP_eq_zero]
    intro a haa
    simp only [List.any_eq_false] at hany
    exact hany a haa
  rcases hacts with h | h <;> rw [h]
  · rw [hcb, hca]
    exact ⟨by omega, by omega, by omega, by omega, by omega, by omega⟩
  · rw [c_check_and_create_new_orders, List.countP_append, List.countP_append,
      List.countP_append, List.countP_append, hcb, hca, hb3, ha3]
    have hbid0 : 0 < List.countP isPlaceBid (createBidOrder env pair bidSamples askSamples
        (processOrdersLoop env pair bidSamples askSamples timer now actives
          ⟨false, false, false, []⟩).has_active_bid) →
        actives.countP (fun o => o.is_buy) = 0 := by
      intro hpos
      cases hany : actives.any (fun o => o.is_buy) with
      | false => exact hanyb hany
      | true =>
        exfalso
        have hhb : (processOrdersLoop env pair bidSamples askSamples timer now actives
            ⟨false, false, false, []⟩).has_active_bid = true := by
          rw [hfb, hany, Bool.or_true]
        rw [hb2 hhb, List.countP_nil] at hpos
        omega
    have hask0 : 0 < List.countP isPlaceAsk (createAskOrder env pair bidSamples askSamples
        (processOrdersLoop env pair bidSamples askSamples timer now actives
          ⟨false, false, false, []⟩).has_active_ask) →
        actives.countP (fun o => !o.is_buy) = 0 := by
      intro hpos
      cases hany : actives.any (fun o => !o.is_buy) with
      | false => exact hanya hany
      | true =>
        exfalso
        have hha : (processOrdersLoop env pair bidSamples askSamples timer now actives
            ⟨false, false, false, []⟩).has_active_ask = true := by
          rw [hfa, hany, Bool.or_true]
        rw [ha2 hha, List.countP_nil] at hpos
        omega
    refine ⟨by omega, by omega, by omega, by omega, ?_, ?_⟩
    · intro hle
      by_cases hpos : 0 < List.countP isPlaceBid (createBidOrder env pair bidSamples askSamples
          (processOrdersLoop env pair bidSamples askSamples timer now actives
            ⟨false, false, false, []⟩).has_active_bid)
      · have := hbid0 hpos
        omega
      · omega
    · intro hle
      by_cases hpos : 0 < List.countP isPlaceAsk (createAskOrder env pair bidSamples askSamples
          (processOrdersLoop env pair bidSamples askSamples timer now actives
            ⟨false, false, false, []⟩).has_active_ask)
      · have := hask0 hpos
        omega
      · omega

/-- Closed instance of C1: starting a tick with no active orders, a bid
placement is emitted and indeed the active bid count is zero. -/
theorem per_tick_at_most_one_bid_and_ask_witness :
    0 < List.countP isPlaceBid (c_process_market_pair envA pairA [] [] 0 1 0 []).2 ∧
    ([] : List LimitOrderModel).countP (fun o => o.is_buy) = 0 := by
  have hpos : 0 < List.countP isPlaceBid (c_process_market_pair envA pairA [] [] 0 1 0 []).2 := by
    have hval : (c_process_market_pair envA pairA [] [] 0 1 0 []).2
        = [Action.placeBid 1 99, Action.placeAsk 1 (10201 / 100)] := by
      simp [c_process_market_pair, processOrdersLoop, c_check_and_create_new_orders,
        createBidOrder, createAskOrder, c_get_market_making_size, c_get_market_making_price,
        c_get_adjusted_limit_order_size, c_get_top_bid_ask_from_price_samples,
        c_get_top_bid_ask, c_get_order_price_quantum, envA, pairA, mkMarket, flatBook, baseCfg]
      norm_num [min_def, max_def]
    rw [hval]
    simp [isPlaceBid]
  exact ⟨hpos,
    (per_tick_at_most_one_bid_and_ask envA pairA [] [] 0 1 0 []).2.1 hpos⟩

/-! Claim C5: exception handling at the per-pair processing boundary. -/

/-- C5 counterexample: with two configured pairs where the first raises, the
tick entry point does not return normally - the exception propagates out
(the outcome is not ok) - and the second pair is never processed. -/
theorem tick_exception_counterexample :
    c_tick procBoom [0, 1] 7 = (7, [0], Except.error "boom") ∧
    (c_tick procBoom [0, 1] 7).2.2 ≠ Except.ok () ∧
    1 ∉ (c_tick procBoom [0, 1] 7).2.1 := by
  refine ⟨rfl, ?_, ?_⟩
  · intro hcontra
    have heq : Except.error "boom" = Except.ok () := hcontra
    exact Except.noConfusion heq
  · intro hmem
    have heq : (1 : ℕ) ∈ [0] := hmem
    simp at heq

/-- C5 amended: an exception raised while processing a market pair is not
caught by the tick entry point (its body is try/finally with no except
clause): the exception propagates out of the tick, the remaining pairs are
not processed, and last_timestamp is still updated by the finally clause. -/
theorem tick_exception_propagates (process : ℕ → Except String Unit) (p : ℕ)
    (rest : List ℕ) (e : String) (t : ℚ) (hboom : process p = Except.error e) :
    c_tick process (p :: rest) t = (t, [p], Except.error e) := by
  simp [c_tick, tickLoopPairs, hboom]

/-- Closed instance: the first pair raising aborts the tick with the error,
with only that pair invoked and last_timestamp set to the tick time. -/
theorem tick_exception_propagates_witness :
    c_tick procBoom (0 :: [1]) 7 = (7, [0], Except.error "boom") :=
  tick_exception_propagates procBoom 0 [1] "boom" 7 rfl

/-! Claim C6: replacement of a cancelled order within the same tick. -/

/-- C6 counterexample: a pair whose only active order is a bid that the
supervisor cancels (it is no longer profitable), with no pending taker
orders, a positive computed bid size and a non-None computed bid price -
yet the emitted actions contain no bid placement (only the cancel and an ask
placement): the replacement bid is not placed within the same tick. -/
theorem same_tick_replacement_counterexample :
    (c_process_market_pair envA pairA [] [] 0 1 0 [⟨"b1", true, 100, 1⟩]).2
        = [Action.cancel "b1", Action.placeAsk 1 (10201 / 100)] ∧
    0 < c_get_market_making_size envA pairA true ∧
    (c_get_market_making_price envA pairA [] []
        true (c_get_market_making_size envA pairA true)).isSome = true ∧
    List.countP isPlaceBid
        (c_process_market_pair envA pairA [] [] 0 1 0 [⟨"b1", true, 100, 1⟩]).2 = 0 := by
  have hval : (c_process_market_pair envA pairA [] [] 0 1 0 [⟨"b1", true, 100, 1⟩]).2
      = [Action.cancel "b1", Action.placeAsk 1 (10201 / 100)] := by
    simp [c_process_market_pair, processOrdersLoop, c_calculate_effective_hedging_price,
      c_check_if_still_profitable, c_check_if_sufficient_balance, c_check_if_price_has_drifted,
      c_check_and_create_new_orders, createBidOrder, createAskOrder,
      c_get_market_making_size, c_get_market_making_price, c_get_adjusted_limit_order_size,
      c_get_top_bid_ask_from_price_samples, c_get_top_bid_ask, c_get_order_price_quantum,
      envA, pairA, mkMarket, flatBook, baseCfg]
    norm_num [min_def, max_def]
  have hsize : c_get_market_making_size envA pairA true = 1 := by
    simp [c_get_market_making_size, c_get_adjusted_limit_order_size, envA, pairA, mkMarket,
      flatBook, baseCfg]
    norm_num [min_def]
  have hprice : c_get_market_making_price envA pairA [] [] true 1 = some 99 := by
    simp [c_get_market_making_price, c_get_top_bid_ask_from_price_samples, c_get_top_bid_ask,
      c_get_order_price_quantum, envA, pairA, mkMarket, flatBook, baseCfg]
    norm_num [min_def]
  refine ⟨hval, by rw [hsize]; norm_num, by rw [hsize, hprice]; rfl, ?_⟩
  rw [hval]
  simp [isPlaceBid]

/-- C6 amended: on a tick where the pair has an active bid (respectively
ask) - including a bid the supervisor cancels during this very tick, since
the has_active_bid flag is set before any cancellation check - no new bid
(respectively ask) is placed within that tick; the replacement happens on a
later tick once the side is empty. -/
theorem no_same_tick_replacement (env : StratEnv) (pair : MarketPair)
    (bidSamples askSamples : List ℚ) (timer now : ℚ) (pending : ℕ)
    (actives : List LimitOrderModel) :
    (actives.any (fun o => o.is_buy) = true →
      List.countP isPlaceBid
        (c_process_market_pair env pair bidSamples askSamples timer now pending actives).2
        = 0) ∧
    (actives.any (fun o => !o.is_buy) = true →
      List.countP isPlaceAsk
        (c_process_market_pair env pair bidSamples askSamples timer now pending actives).2
        = 0) := by
  obtain ⟨hfb, hfa, hcb, hca⟩ := processOrdersLoop_spec env pair bidSamples askSamples
    timer now actives ⟨false, false, false, []⟩
  rw [List.countP_nil] at hcb hca
  have hacts :
      (c_process_market_pair env pair bidSamples askSamples timer now pending actives).2
        = (processOrdersLoop env pair bidSamples askSamples timer now actives
            ⟨false, false, false, []⟩).actions ∨
      (c_process_market_pair env pair bidSamples askSamples timer now pending actives).2
        = (processOrdersLoop env pair bidSamples askSamples timer now actives
            ⟨false, false, false, []⟩).actions ++
          c_check_and_create_new_orders env pair bidSamples askSamples
            (processOrdersLoop env pair bidSamples askSamples timer now actives
              ⟨false, false, false, []⟩).has_active_bid
            (processOrdersLoop env pair bidSamples askSamples timer now actives
              ⟨false, false, false, []⟩).has_active_ask := by
    simp only [c_process_market_pair]
    split
    · exact Or.inl rfl
    · split
      · exact Or.inl rfl
      · exact Or.inr rfl
  obtain ⟨hb1, hb2, hb3⟩ := createBidOrder_counts env pair bidSamples askSamples
    (processOrdersLoop env pair bidSamples askSamples timer now actives
      ⟨false, false, false, []⟩).has_active_bid
  obtain ⟨ha1, ha2, ha3⟩ := createAskOrder_counts env pair bidSamples askSamples
    (processOrdersLoop env pair bidSamples askSamples timer now actives
      ⟨false, false, false, []⟩).has_active_ask
  rcases hacts with h | h <;> rw [h]
  · exact ⟨fun _ => hcb, fun _ => hca⟩
  · constructor
    · intro hany
      have hhb : (processOrdersLoop env pair bidSamples askSamples timer now actives
          ⟨false, false, false, []⟩).has_active_bid = true := by
        rw [hfb, hany, Bool.or_true]
      rw [c_check_and_create_new_orders, hb2 hhb, List.nil_append, List.countP_append,
        hcb, ha3]
    · intro hany
      have hha : (processOrdersLoop env pair bidSamples askSamples timer now actives
          ⟨false, false, false, []⟩).has_active_ask = true := by
        rw [hfa, hany, Bool.or_true]
      rw [c_check_and_create_new_orders, ha2 hha, List.append_nil, List.countP_append,
        hca, hb3]

/-- Closed instance of the amended C6: in the cancellation scenario above,
no bid placement is emitted in the same tick. -/
theorem no_same_tick_replacement_witness :
    List.countP isPlaceBid
        (c_process_market_pair envA pairA [] [] 0 1 0 [⟨"b1", true, 100, 1⟩]).2 = 0 :=
  (no_same_tick_replacement envA pairA [] [] 0 1 0 [⟨"b1", true, 100, 1⟩]).1 (by rfl)

/-! Claim C2: the hedge drain over a fill bucket. -/

/-- C2 counterexample: a buy bucket aggregating q = 5 with only 2 base units
available on the taker (balance factor 199/200, identity quantization): a
taker sell market order is submitted, but its size is min(q, balance cap)
quantized = 1.99, not q quantized = 5 - and the bucket is still emptied, so
neither disjunct of the claim holds at this input. -/
theorem hedge_drain_counterexample :
    c_check_and_hedge_orders envB pairB [⟨5, 100⟩] []
        = ([Action.takerSell (199 / 100)], [], []) ∧
    pairB.taker.market.quantizeOrderAmount 5 = 5 ∧
    (199 / 100 : ℚ) ≠ 5 := by
  refine ⟨?_, rfl, by norm_num⟩
  simp [c_check_and_hedge_orders, envB, pairB, mkMarket, flatBook, baseCfg]
  norm_num [min_def]

/-- C2 amended: for every invocation of the hedge drain on a pair with a
positive aggregated buy (respectively sell) fill quantity q, either a taker
market order whose size equals min(q, the balance-capped amount) quantized
to the taker size tick is submitted - the full bucket then being emptied
immediately after the submission call - or no taker order for that side is
submitted and the bucket is left unchanged for retry; no partial-bucket
drain occurs. -/
theorem hedge_drain_all_or_nothing (env : StratEnv) (pair : MarketPair)
    (buyFills sellFills : List FillEvent) :
    (0 < (buyFills.map (fun r => r.amount)).sum →
      (0 < pair.taker.market.quantizeOrderAmount
          (min ((buyFills.map (fun r => r.amount)).sum)
            (pair.taker.market.getAvailableBalance pair.taker.base_asset *
              env.cfg.order_size_taker_balance_factor)) ∧
        Action.takerSell (pair.taker.market.quantizeOrderAmount
          (min ((buyFills.map (fun r => r.amount)).sum)
            (pair.taker.market.getAvailableBalance pair.taker.base_asset *
              env.cfg.order_size_taker_balance_factor)))
          ∈ (c_check_and_hedge_orders env pair buyFills sellFills).1 ∧
        (c_check_and_hedge_orders env pair buyFills sellFills).2.1 = []) ∨
      (¬0 < pair.taker.market.quantizeOrderAmount
          (min ((buyFills.map (fun r => r.amount)).sum)
            (pair.taker.market.getAvailableBalance pair.taker.base_asset *
              env.cfg.order_size_taker_balance_factor)) ∧
        (∀ a : ℚ, Action.takerSell a ∉ (c_check_and_hedge_orders env pair buyFills sellFills).1) ∧
        (c_check_and_hedge_orders env pair buyFills sellFills).2.1 = buyFills)) ∧
    (0 < (sellFills.map (fun r => r.amount)).sum →
      (0 < pair.taker.market.quantizeOrderAmount
          (min ((sellFills.map (fun r => r.amount)).sum)
            (pair.taker.market.getAvailableBalance pair.taker.quote_asset /
              pair.taker.order_book.priceForVolume true
                ((sellFills.map (fun r => r.amount)).sum) *
              env.cfg.order_size_taker_balance_factor)) ∧
        Action.takerBuy (pair.taker.market.quantizeOrderAmount
          (min ((sellFills.map (fun r => r.amount)).sum)
            (pair.taker.market.getAvailableBalance pair.taker.quote_asset /
              pair.taker.order_book.priceForVolume true
                ((sellFills.map (fun r => r.amount)).sum) *
              env.cfg.order_size_taker_balance_factor)))
          ∈ (c_check_and_hedge_orders env pair buyFills sellFills).1 ∧
        (c_check_and_hedge_orders env pair buyFills sellFills).2.2 = []) ∨
      (¬0 < pair.taker.market.quantizeOrderAmount
          (min ((sellFills.map (fun r => r.amount)).sum)
            (pair.taker.market.getAvailableBalance pair.taker.quote_asset /
              pair.taker.order_book.priceForVolume true
                ((sellFills.map (fun r => r.amount)).sum) *
              env.cfg.order_size_taker_balance_factor)) ∧
        (∀ a : ℚ, Action.takerBuy a ∉ (c_check_and_hedge_orders env pair buyFills sellFills).1) ∧
        (c_check_and_hedge_orders env pair buyFills sellFills).2.2 = sellFills)) := by
  by_cases hqb : 0 < (buyFills.map (fun r => r.amount)).sum <;>
    by_cases hqs : 0 < (sellFills.map (fun r => r.amount)).sum <;>
      by_cases hhb : 0 < pair.taker.market.quantizeOrderAmount
        (min ((buyFills.map (fun r => r.amount)).sum)
          (pair.taker.market.getAvailableBalance pair.taker.base_asset *
            env.cfg.order_size_taker_balance_factor)) <;>
        by_cases hhs : 0 < pair.taker.market.quantizeOrderAmount
          (min ((sellFills.map (fun r => r.amount)).sum)
            (pair.taker.market.getAvailableBalance pair.taker.quote_asset /
              pair.taker.order_book.priceForVolume true
                ((sellFills.map (fun r => r.amount)).sum) *
              env.cfg.order_size_taker_balance_factor)) <;>
          simp [c_check_and_hedge_orders, hqb, hqs, hhb, hhs, isPlaceBid, isPlaceAsk]

/-- Closed instance of the amended C2: the scenario of the counterexample
seen through the amended statement (positive bucket, positive quantized
hedge, order submitted and bucket emptied). -/
theorem hedge_drain_all_or_nothing_witness :
    (0 < pairB.taker.market.quantizeOrderAmount
        (min (((([⟨5, 100⟩] : List FillEvent)).map (fun r => r.amount)).sum)
          (pairB.taker.market.getAvailableBalance pairB.taker.base_asset *
            envB.cfg.order_size_taker_balance_factor)) ∧
      Action.takerSell (pairB.taker.market.quantizeOrderAmount
        (min (((([⟨5, 100⟩] : List FillEvent)).map (fun r => r.amount)).sum)
          (pairB.taker.market.getAvailableBalance pairB.taker.base_asset *
            envB.cfg.order_size_taker_balance_factor)))
        ∈ (c_check_and_hedge_orders envB pairB [⟨5, 100⟩] []).1 ∧
      (c_check_and_hedge_orders envB pairB [⟨5, 100⟩] []).2.1 = []) ∨
    (¬0 < pairB.taker.market.quantizeOrderAmount
        (min (((([⟨5, 100⟩] : List FillEvent)).map (fun r => r.amount)).sum)
          (pairB.taker.market.getAvailableBalance pairB.taker.base_asset *
            envB.cfg.order_size_taker_balance_factor)) ∧
      (∀ a : ℚ, Action.takerSell a ∉ (c_check_and_hedge_orders envB pairB [⟨5, 100⟩] []).1) ∧
      (c_check_and_hedge_orders envB pairB [⟨5, 100⟩] []).2.1 = [⟨5, 100⟩]) :=
  (hedge_drain_all_or_nothing envB pairB [⟨5, 100⟩] []).1 (by norm_num)

/-! Claim C7: the division-by-zero fallback in the sizing routine. -/

/-- C7 counterexample: a taker book whose VWAP raises on both sides with top
bid 99 and top ask 101. In the bid-side sizing branch the VWAP was being
computed on the bid side (a simulated sell), whose top quote is 99, but the
code falls back to the buy-side price 101: the computed size is 1 (= 101/101)
while the same-side fallback of the claim would give 101/99. -/
theorem size_fallback_counterexample :
    c_get_market_making_size envC pairC true = 1 ∧
    spec_market_making_size_same_side_fallback envC pairC true = 101 / 99 ∧
    (1 : ℚ) ≠ 101 / 99 := by
  refine ⟨?_, ?_, by norm_num⟩
  · simp [c_get_market_making_size, c_get_adjusted_limit_order_size, envC, pairC, mkMarket,
      emptyVwapBook, baseCfg]
    try norm_num [min_def]
  · simp [spec_market_making_size_same_side_fallback, c_get_adjusted_limit_order_size,
      envC, pairC, mkMarket, emptyVwapBook, baseCfg]
    try norm_num [min_def]

/-- C7 amended: when obtaining the taker VWAP for the adjusted order size
raises a division-by-zero, both sizing branches fall back to the taker book
buy-side top quote (the top ask, c_get_price(True)): the same side as the
VWAP in the ask-sizing branch, but the opposite side of the bid-side VWAP in
the bid-sizing branch. -/
theorem size_fallback_is_buy_side_top (env : StratEnv) (pair : MarketPair) :
    (pair.taker.order_book.vwapForVolume false (c_get_adjusted_limit_order_size env pair)
        = none →
      c_get_market_making_size env pair true =
        pair.maker.market.quantizeOrderAmount
          (min (min (pair.maker.market.getAvailableBalance pair.maker.quote_asset /
                pair.taker.order_book.getPrice true)
              (pair.taker.market.getAvailableBalance pair.taker.base_asset *
                env.cfg.order_size_taker_balance_factor))
            (c_get_adjusted_limit_order_size env pair))) ∧
    (pair.taker.order_book.vwapForVolume true (c_get_adjusted_limit_order_size env pair)
        = none →
      c_get_market_making_size env pair false =
        pair.maker.market.quantizeOrderAmount
          (min (min (pair.maker.market.getAvailableBalance pair.maker.base_asset)
              (pair.taker.market.getAvailableBalance pair.taker.quote_asset *
                env.cfg.order_size_taker_balance_factor /
                pair.taker.order_book.getPrice true))
            (c_get_adjusted_limit_order_size env pair))) := by
  constructor
  · intro hnone
    simp [c_get_market_making_size, hnone]
  · intro hnone
    simp [c_get_market_making_size, hnone]

/-- Closed instance of the amended C7: at the counterexample input, the
bid-side fallback size is the quantized min using the top ask 101. -/
theorem size_fallback_is_buy_side_top_witness :
    c_get_market_making_size envC pairC true =
      pairC.maker.market.quantizeOrderAmount
        (min (min (pairC.maker.market.getAvailableBalance pairC.maker.quote_asset /
              pairC.taker.order_book.getPrice true)
            (pairC.taker.market.getAvailableBalance pairC.taker.base_asset *
              envC.cfg.order_size_taker_balance_factor))
          (c_get_adjusted_limit_order_size envC pairC)) :=
  (size_fallback_is_buy_side_top envC pairC).1 (by rfl)

/-! Claims C8 and C9: the price sample queues. -/

/-- Dropping the excess prefix keeps the just-appended rightmost element. -/
theorem trimToWindow_concat_getLast (l : List ℚ) (a : ℚ) :
    (trimToWindow (l ++ [a])).getLast? = some a := by
  unfold trimToWindow
  rw [List.drop_append_eq_append_drop]
  rw [show (l ++ [a]).length - ORDER_ADJUST_SAMPLE_WINDOW - l.length = 0 from by
    simp [ORDER_ADJUST_SAMPLE_WINDOW]]
  simp

/-- C8 counterexample: with a stale bid sample 110 in the deque and the maker
book top bid currently 100, the sampler appends 110 (the smoothed value from
c_get_top_bid_ask_from_price_samples), not the raw top-of-book 100. -/
theorem sample_append_counterexample :
    c_take_suggested_price_sample envA pairD 0 5 [110] [] = ([110, 110], [200]) ∧
    c_get_top_bid_ask envA pairD = (100, 200) ∧
    (110 : ℚ) ≠ 100 := by
  refine ⟨?_, ?_, by norm_num⟩
  · simp [c_take_suggested_price_sample, c_get_top_bid_ask_from_price_samples,
      c_get_top_bid_ask, trimToWindow, ORDER_ADJUST_SAMPLE_INTERVAL,
      ORDER_ADJUST_SAMPLE_WINDOW, envA, pairD, mkMarket, flatBook, baseCfg]
    norm_num [max_def, min_def]
  · simp [c_get_top_bid_ask, envA, pairD, mkMarket, flatBook, baseCfg]

/-- C8 amended: every element appended to a pair bid (respectively ask)
price-sample deque equals the smoothed top computed by
c_get_top_bid_ask_from_price_samples at the moment of sampling - the maximum
of the stored bid samples and the current top bid (minimum for asks) - not
the raw top-of-book snapshot. -/
theorem sample_appends_smoothed_top (env : StratEnv) (pair : MarketPair)
    (last now : ℚ) (bidSamples askSamples : List ℚ)
    (hslot : ⌊last / ORDER_ADJUST_SAMPLE_INTERVAL⌋ <
      ⌊now / ORDER_ADJUST_SAMPLE_INTERVAL⌋) :
    (c_take_suggested_price_sample env pair last now bidSamples askSamples).1.getLast?
        = some (c_get_top_bid_ask_from_price_samples env pair bidSamples askSamples).1 ∧
    (c_take_suggested_price_sample env pair last now bidSamples askSamples).2.getLast?
        = some (c_get_top_bid_ask_from_price_samples env pair bidSamples askSamples).2 := by
  unfold c_take_suggested_price_sample
  rw [if_pos hslot]
  exact ⟨trimToWindow_concat_getLast _ _, trimToWindow_concat_getLast _ _⟩

/-- Closed instance of the amended C8: the appended bid sample equals the
smoothed top bid 110 (not the raw top bid 100). -/
theorem sample_appends_smoothed_top_witness :
    (c_take_suggested_price_sample envA pairD 0 5 [110] []).1.getLast?
        = some (c_get_top_bid_ask_from_price_samples envA pairD [110] []).1 :=
  (sample_appends_smoothed_top envA pairD 0 5 [110] [] (by
    norm_num [ORDER_ADJUST_SAMPLE_INTERVAL])).1

/-- C9 counterexample: with ticks at 4, 9.9 and 10 seconds, samples are
appended both at 9.9 (slot 0 to slot 1) and at 10 (slot 1 to slot 2): two
consecutive appends separated by 0.1 s, less than 5 s. -/
theorem sample_gap_counterexample :
    c_take_suggested_price_sample envA pairD 4 (99 / 10) [] [] = ([100], [200]) ∧
    c_take_suggested_price_sample envA pairD (99 / 10) 10 [100] [200]
        = ([100, 100], [200, 200]) ∧
    (10 - 99 / 10 : ℚ) < 5 := by
  refine ⟨?_, ?_, by norm_num⟩
  · simp [c_take_suggested_price_sample, c_get_top_bid_ask_from_price_samples,
      c_get_top_bid_ask, trimToWindow, ORDER_ADJUST_SAMPLE_INTERVAL,
      ORDER_ADJUST_SAMPLE_WINDOW, envA, pairD, mkMarket, flatBook, baseCfg]
    try norm_num [max_def, min_def]
  · simp [c_take_suggested_price_sample, c_get_top_bid_ask_from_price_samples,
      c_get_top_bid_ask, trimToWindow, ORDER_ADJUST_SAMPLE_INTERVAL,
      ORDER_ADJUST_SAMPLE_WINDOW, envA, pairD, mkMarket, flatBook, baseCfg]
    try norm_num [max_def, min_def]

/-- C9 amended: the sample deques never exceed length 12 (oldest entries are
evicted), a sample is appended only when the 5-second floor-division slot of
the current timestamp strictly exceeds the slot of the previous tick
timestamp, and consecutive appends land in strictly increasing 5-second
slots (at most one append per slot) - though they can be separated by less
than 5 seconds. -/
theorem sample_window_and_slots (env : StratEnv) (pair : MarketPair)
    (last now : ℚ) (bidSamples askSamples : List ℚ) :
    (bidSamples.length ≤ 12 →
      (c_take_suggested_price_sample env pair last now bidSamples askSamples).1.length ≤ 12) ∧
    (askSamples.length ≤ 12 →
      (c_take_suggested_price_sample env pair last now bidSamples askSamples).2.length ≤ 12) ∧
    (¬(⌊last / ORDER_ADJUST_SAMPLE_INTERVAL⌋ < ⌊now / ORDER_ADJUST_SAMPLE_INTERVAL⌋) →
      c_take_suggested_price_sample env pair last now bidSamples askSamples
        = (bidSamples, askSamples)) ∧
    (∀ last2 now2 : ℚ, now ≤ last2 →
      ⌊last / ORDER_ADJUST_SAMPLE_INTERVAL⌋ < ⌊now / ORDER_ADJUST_SAMPLE_INTERVAL⌋ →
      ⌊last2 / ORDER_ADJUST_SAMPLE_INTERVAL⌋ < ⌊now2 / ORDER_ADJUST_SAMPLE_INTERVAL⌋ →
      ⌊now / ORDER_ADJUST_SAMPLE_INTERVAL⌋ < ⌊now2 / ORDER_ADJUST_SAMPLE_INTERVAL⌋) := by
  refine ⟨?_, ?_, ?_, ?_⟩
  · intro hlen
    unfold c_take_suggested_price_sample
    split
    · simp [trimToWindow, ORDER_ADJUST_SAMPLE_WINDOW]
      omega
    · exact hlen
  · intro hlen
    unfold c_take_suggested_price_sample
    split
    · simp [trimToWindow, ORDER_ADJUST_SAMPLE_WINDOW]
      omega
    · exact hlen
  · intro hcond
    unfold c_take_suggested_price_sample
    rw [if_neg hcond]
  · intro last2 now2 hmono h1 h2
    have hle : ⌊now / ORDER_ADJUST_SAMPLE_INTERVAL⌋ ≤ ⌊last2 / ORDER_ADJUST_SAMPLE_INTERVAL⌋ := by
      apply Int.floor_le_floor
      unfold ORDER_ADJUST_SAMPLE_INTERVAL
      gcongr
    omega

/-- Closed instance of the amended C9: starting from a full 12-element bid
deque, the appended sample keeps the deque at 12 entries. -/
theorem sample_window_and_slots_witness :
    (c_take_suggested_price_sample envA pairD 0 5
      [1, 2, 3, 4, 5, 6, 7, 8, 9, 10, 11, 12] []).1.length ≤ 12 :=
  (sample_window_and_slots envA pairD 0 5
    [1, 2, 3, 4, 5, 6, 7, 8, 9, 10, 11, 12] []).1 (by norm_num)

/-! Claim C4: the maker price formula. -/

/-- C4 counterexample: on a maker venue with the paper trade
significant-figure price quantum (4 decimals, 2 significant figures), the
smoothed top bid 10.1 yields the quantum 1, and the quantum at the final
maker price is also 1 - so the maker price tick is the unambiguous value 1
at this input - yet with taker VWAP 50, min_profitability 1/100 and
adjustment enabled the source emits the bid price 12: its clamp is
(ceil(10.1/1) + 1) * 1 = 12 because 10.1 does not lie on the grid, while the
claim formula clamps raw to top_bid + 1 tick = 11.1 and floors to 11. -/
theorem maker_price_tick_clamp_counterexample :
    c_get_order_price_quantum pairF.maker.market
        (c_get_top_bid_ask_from_price_samples envE pairF [] []).1 = 1 ∧
    c_get_order_price_quantum pairF.maker.market 12 = 1 ∧
    c_get_market_making_price envE pairF [] [] true 1 = some 12 ∧
    spec_maker_price envE pairF [] [] 1 true 1 = some 11 ∧
    some (12 : ℚ) ≠ some (11 : ℚ) := by
  have hclog1 : Int.clog 10 (101 / 10 : ℚ) = 2 := by
    rw [Int.clog_of_one_le_right _ (by norm_num)]
    rw [show ⌈(101 / 10 : ℚ)⌉₊ = 11 from by
      rw [Nat.ceil_eq_iff (by norm_num)]
      norm_num]
    simp [Nat.clog]
  have hclog2 : Int.clog 10 (12 : ℚ) = 2 := by
    rw [Int.clog_of_one_le_right _ (by norm_num)]
    rw [show ⌈(12 : ℚ)⌉₊ = 12 from by norm_num]
    simp [Nat.clog]
  have hq1 : paper_trade_order_price_quantum (some ⟨4, 2⟩) (101 / 10) = 1 := by
    simp only [paper_trade_order_price_quantum, hclog1]
    norm_num [max_def]
  have hq2 : paper_trade_order_price_quantum (some ⟨4, 2⟩) 12 = 1 := by
    simp only [paper_trade_order_price_quantum, hclog2]
    norm_num [max_def]
  have htops : (c_get_top_bid_ask_from_price_samples envE pairF [] []).1 = 101 / 10 := by
    norm_num [c_get_top_bid_ask_from_price_samples, c_get_top_bid_ask, envE, pairF,
      sigFigMarket, mkMarket, flatBook, baseCfg]
  have hceil11 : ⌈(101 / 10 : ℚ)⌉ = (11 : ℤ) := by
    rw [Int.ceil_eq_iff]
    norm_num
  refine ⟨?_, ?_, ?_, ?_, by norm_num⟩
  · rw [htops]
    simp only [c_get_order_price_quantum, pairF, sigFigMarket]
    exact hq1
  · simp only [c_get_order_price_quantum, pairF, sigFigMarket]
    exact hq2
  · norm_num [c_get_market_making_price, c_get_order_price_quantum,
      c_get_top_bid_ask_from_price_samples, c_get_top_bid_ask, envE, pairF, sigFigMarket,
      mkMarket, flatBook, baseCfg, hq1, hq2, hceil11, min_def, max_def]
  · norm_num [spec_maker_price, c_get_top_bid_ask_from_price_samples, c_get_top_bid_ask,
      envE, pairF, sigFigMarket, mkMarket, flatBook, baseCfg, min_def, max_def]

/-- C4 amended: whenever the maker venue price quantum is one per-pair
positive constant t - the same value at every price it is consulted at, as
the spec glossary assumes; the in-repository paper trade implementation is
price-dependent, so this is a genuine restriction - and the smoothed tops
are integer multiples of t, the maker price computed by the source (whose
clamp reads (ceil(top_bid/tick) + 1) * tick, resp.
(floor(top_ask/tick) - 1) * tick) equals the spec formula: raw price from
the taker VWAP (FX-converted when the quote assets differ) and
min_profitability, clamped to top_bid + 1 tick (bid) or top_ask - 1 tick
(ask) when adjustment is enabled, then floor- (bid) or ceil- (ask)
quantized to t; None exactly on empty book. -/
theorem market_making_price_matches_spec (env : StratEnv) (pair : MarketPair)
    (bidSamples askSamples : List ℚ) (is_bid : Bool) (size : ℚ) (t : ℚ) (kb ka : ℤ)
    (hconst : ∀ p : ℚ, pair.maker.market.getOrderPriceQuantum p = t)
    (hq : 0 < t)
    (hb : (c_get_top_bid_ask_from_price_samples env pair bidSamples askSamples).1
        = kb * t)
    (ha : (c_get_top_bid_ask_from_price_samples env pair bidSamples askSamples).2
        = ka * t) :
    c_get_market_making_price env pair bidSamples askSamples is_bid size
      = spec_maker_price env pair bidSamples askSamples t is_bid size := by
  have hq0 : t ≠ 0 := ne_of_gt hq
  have hceil : ((⌈(c_get_top_bid_ask_from_price_samples env pair bidSamples askSamples).1 /
      t⌉ + 1 : ℤ) : ℚ) * t
      = (c_get_top_bid_ask_from_price_samples env pair bidSamples askSamples).1 + t := by
    rw [hb, mul_div_cancel_right₀ _ hq0, Int.ceil_intCast]
    push_cast
    ring
  have hfloor : ((⌊(c_get_top_bid_ask_from_price_samples env pair bidSamples askSamples).2 /
      t⌋ - 1 : ℤ) : ℚ) * t
      = (c_get_top_bid_ask_from_price_samples env pair bidSamples askSamples).2 - t := by
    rw [ha, mul_div_cancel_right₀ _ hq0, Int.floor_intCast]
    push_cast
    ring
  cases is_bid with
  | true =>
    simp only [c_get_market_making_price, spec_maker_price, c_get_order_price_quantum,
      hconst, if_true]
    rw [hceil]
  | false =>
    simp only [c_get_market_making_price, spec_maker_price, c_get_order_price_quantum,
      hconst, Bool.false_eq_true, if_false]
    rw [hfloor]

/-- Closed instance of the amended C4 at the spec happy-path scenario (maker
tops 100/101, taker VWAP 99.5/100.5, constant tick 1/100, min_profitability
1/100, adjustment enabled): source and spec pricing agree. -/
theorem market_making_price_matches_spec_witness :
    c_get_market_making_price envE pairE [] [] true 1
      = spec_maker_price envE pairE [] [] (1 / 100) true 1 :=
  market_making_price_matches_spec envE pairE [] [] true 1 (1 / 100) 10000 10100
    (fun _ => rfl)
    (by norm_num)
    (by norm_num [c_get_top_bid_ask_from_price_samples, c_get_top_bid_ask, envE, pairE,
      mkMarket, flatBook, baseCfg])
    (by norm_num [c_get_top_bid_ask_from_price_samples, c_get_top_bid_ask, envE, pairE,
      mkMarket, flatBook, baseCfg])

end CrossExchangeMarketMaking
